import Mathlib

/-!
# eltlib: `lib/sdl/details/mainwindow.h`

The header declares the windowing interface of the library.  Its only
data-bearing construct is

```c
enum Event {
    NO_EVENT = -1,
    QUIT = 0,
};
```

together with the prototype `enum Event pollEvent();`, whose result type is
this enumeration.  The enumeration is embedded as an inductive type with one
constructor per enumerator, and the integer value the declaration assigns to
each enumerator as a function into `Int`.
-/

namespace Eltlib

/-- The enumerators of `enum Event`, in declaration order. -/
inductive Event where
  | NO_EVENT
  | QUIT
  deriving DecidableEq, Repr

namespace Event

/-- The integer value the declaration gives each enumerator:
`NO_EVENT = -1`, `QUIT = 0`. -/
def code : Event → Int
  | NO_EVENT => -1
  | QUIT => 0

/-- Reading an integer back as an enumerator: the declared values are mapped
to their enumerators, every other integer names no enumerator. -/
def decode (n : Int) : Option Event :=
  if n = -1 then some NO_EVENT
  else if n = 0 then some QUIT
  else none

/-- The test a caller applies to a polled value to tell a reported event from
the sentinel: `result >= 0`. -/
def isReported (e : Event) : Bool :=
  decide (0 ≤ e.code)

end Event

/-! ## Helper lemmas -/

theorem Event.cases_eq (e : Event) : e = Event.NO_EVENT ∨ e = Event.QUIT := by
  cases e
  · exact Or.inl rfl
  · exact Or.inr rfl

theorem Event.code_NO_EVENT_val : Event.NO_EVENT.code = -1 := rfl

theorem Event.code_QUIT_val : Event.QUIT.code = 0 := rfl

theorem Event.code_inj {a b : Event} (h : a.code = b.code) : a = b := by
  cases a <;> cases b <;> first | rfl | (simp [Event.code] at h)

theorem Event.decode_code_eq (e : Event) : Event.decode e.code = some e := by
  cases e <;> simp [Event.decode, Event.code]

theorem Event.code_neg_iff (e : Event) : e.code < 0 ↔ e = Event.NO_EVENT := by
  cases e <;> simp [Event.code]

/-! ## Claims -/

/-- C1: the integer code of the `Event` enumeration is `-1` for `NO_EVENT`
and `0` for `QUIT`. -/
theorem event_codes :
    Event.code Event.NO_EVENT = -1 ∧ Event.code Event.QUIT = 0 :=
  ⟨Event.code_NO_EVENT_val, Event.code_QUIT_val⟩

/-- C2: the `Event` enumeration has exactly two named values: every `Event`
is `NO_EVENT` or `QUIT`, and an integer is the code of some `Event` exactly
when it is `-1` or `0`. -/
theorem event_exactly_two :
    (∀ e : Event, e = Event.NO_EVENT ∨ e = Event.QUIT) ∧
    (∀ n : Int, (∃ e : Event, e.code = n) ↔ (n = -1 ∨ n = 0)) := by
  refine ⟨Event.cases_eq, fun n => ⟨?_, ?_⟩⟩
  · rintro ⟨e, rfl⟩
    rcases Event.cases_eq e with h | h
    · exact Or.inl (by rw [h]; rfl)
    · exact Or.inr (by rw [h]; rfl)
  · rintro (h | h)
    · exact ⟨Event.NO_EVENT, by rw [h]; rfl⟩
    · exact ⟨Event.QUIT, by rw [h]; rfl⟩

/-- C3: the integer encoding of `Event` is injective and round-trips through
the decoder (`-1` to `NO_EVENT`, `0` to `QUIT`, anything else to none); the
decoder rejects every integer that is not a code; and the code of `NO_EVENT`
differs from the code of `QUIT`, so the one is never read as the other. -/
theorem event_code_injective_roundtrip :
    (∀ a b : Event, a.code = b.code → a = b) ∧
    (∀ e : Event, Event.decode e.code = some e) ∧
    (∀ n : Int, n ≠ -1 → n ≠ 0 → Event.decode n = none) ∧
    Event.code Event.NO_EVENT ≠ Event.code Event.QUIT ∧
    Event.decode (Event.code Event.NO_EVENT) ≠ some Event.QUIT := by
  refine ⟨fun a b h => Event.code_inj h, Event.decode_code_eq, ?_, ?_, ?_⟩
  · intro n h1 h0
    simp [Event.decode, h1, h0]
  · simp [Event.code]
  · rw [Event.decode_code_eq]
    simp

/-- C3 at concrete inputs: two events with equal codes are equal, the code of
`QUIT` decodes to `QUIT`, and `7` decodes to nothing. -/
theorem event_code_injective_roundtrip_witness :
    Event.code Event.QUIT = Event.code Event.QUIT ∧
    Event.QUIT = Event.QUIT ∧
    Event.decode (Event.code Event.QUIT) = some Event.QUIT ∧
    Event.decode 7 = none :=
  ⟨rfl,
   event_code_injective_roundtrip.1 Event.QUIT Event.QUIT rfl,
   event_code_injective_roundtrip.2.1 Event.QUIT,
   event_code_injective_roundtrip.2.2.1 7 (by decide) (by decide)⟩

/-- C4: `NO_EVENT` is the only `Event` with a negative code: the code of an
`Event` is negative exactly when it is `NO_EVENT`, every other `Event` has a
non-negative code, and the test `result >= 0` holds exactly for the events
other than `NO_EVENT`. -/
theorem event_negative_iff_no_event :
    (∀ e : Event, e.code < 0 ↔ e = Event.NO_EVENT) ∧
    (∀ e : Event, e ≠ Event.NO_EVENT → 0 ≤ e.code) ∧
    (∀ e : Event, e.isReported = true ↔ e ≠ Event.NO_EVENT) := by
  refine ⟨Event.code_neg_iff, ?_, ?_⟩
  · intro e he
    have h := (Event.code_neg_iff e).not.mpr he
    omega
  · intro e
    have h := Event.code_neg_iff e
    simp only [Event.isReported, decide_eq_true_eq, ne_eq]
    rw [← h]
    omega

/-- C4 at concrete inputs: `QUIT` is not `NO_EVENT` and its code is
non-negative; `NO_EVENT` fails the `result >= 0` test. -/
theorem event_negative_iff_no_event_witness :
    Event.QUIT ≠ Event.NO_EVENT ∧
    0 ≤ Event.code Event.QUIT ∧
    Event.isReported Event.NO_EVENT = false :=
  ⟨by decide,
   event_negative_iff_no_event.2.1 Event.QUIT (by decide),
   by
     have h := (event_negative_iff_no_event.2.2 Event.NO_EVENT).not.mpr (by simp)
     simpa using h⟩

end Eltlib
